import Mathlib

/-!
Verification of the AsioTcpClient core: the length-prefixed framing codec
(`include/Message.h`), the reconnect policy and the connection state machine
(`src/TcpClient.cpp`).

The embedding is shallow: message bodies and wire frames are lists of byte
values (`Nat`, values below 256), the client object is a record of the fields
of `TcpClient`, and every asynchronous completion handler of the source is a
pure function from a client to a client paired with the list of observable
actions it performs (callback invocations, operations it starts on the
reactor).  Machine integers are modelled as `Nat`/`Int` with explicit
`% 2 ^ 32` where the source casts to `uint32_t`.
-/

namespace asioclient

/-- Constant `HEADER_SIZE` from `Message.h`: the 4-byte length prefix. -/
def HEADER_SIZE : Nat := 4

/-- Constant `MAX_BODY_SIZE` from `Message.h`: 16 MiB. -/
def MAX_BODY_SIZE : Nat := 16 * 1024 * 1024

/-- A message body: the `std::vector<char> body_` of `Message`, as a list of
byte values. -/
abbrev Message : Type := List Nat

/-- The four big-endian bytes of `v` truncated to 32 bits: the bytes that
`htonl(static_cast<uint32_t>(v))` followed by `memcpy` places on the wire. -/
def u32be (v : Nat) : List Nat :=
  [v % 2 ^ 32 / 2 ^ 24 % 256, v % 2 ^ 32 / 2 ^ 16 % 256,
   v % 2 ^ 32 / 2 ^ 8 % 256, v % 2 ^ 32 % 256]

/-- Method `Message::encode`: a frame of `HEADER_SIZE + body_.size()` bytes, the
header holding the body length as a big-endian `uint32_t`. -/
def Message.encode (body_ : Message) : List Nat :=
  u32be body_.length ++ body_

/-- Method `Message::decodeHeader`: `memcpy` of the first `HEADER_SIZE` bytes then
`ntohl`, i.e. big-endian recomposition.  The source requires at least 4 bytes
(reads are length-gated upstream); shorter input yields 0 here. -/
def Message.decodeHeader : List Nat → Nat
  | b0 :: b1 :: b2 :: b3 :: _ => b0 * 2 ^ 24 + b1 * 2 ^ 16 + b2 * 2 ^ 8 + b3
  | _ => 0

/-- Method `Message::isValidLength`: `len <= MAX_BODY_SIZE`. -/
def Message.isValidLength (len : Nat) : Bool :=
  decide (len ≤ MAX_BODY_SIZE)

/-- Structure `ReconnectConfig` from `TcpClient.h`, with its field defaults.  Delays are
millisecond counts (the representation of `std::chrono::milliseconds`); the
`double backoffMultiplier` is modelled as a rational. -/
structure ReconnectConfig where
  enabled : Bool := true
  initialDelay : Int := 1000
  maxDelay : Int := 30000
  backoffMultiplier : ℚ := 2
  maxRetries : Int := -1
deriving Repr, DecidableEq

/-- The default-constructed `ReconnectConfig` (all field initialisers). -/
def defaultReconnectConfig : ReconnectConfig := {}

/-- Method `TcpClient::calculateReconnectDelay`: `initialDelay` on attempt 0, else
`std::pow(backoffMultiplier, attempts)` times `initialDelay`,
`duration_cast` back to whole milliseconds (truncation, here `Int.floor`,
which agrees on the non-negative values involved), capped at `maxDelay`. -/
def calculateReconnectDelay (cfg : ReconnectConfig) (reconnectAttempts : Nat) :
    Int :=
  if reconnectAttempts = 0 then cfg.initialDelay
  else
    min ⌊(cfg.initialDelay : ℚ) * cfg.backoffMultiplier ^ reconnectAttempts⌋
      cfg.maxDelay

/-- Enumeration `ClientState` from `TcpClient.h`. -/
inductive ClientState
  | Disconnected
  | Connecting
  | Connected
  | Reconnecting
deriving Repr, DecidableEq

/-- The error codes that reach the completion handlers of `TcpClient.cpp`:
`ok` (a falsy `error_code`), `operationAborted` (`asio::error::operation_aborted`,
produced when `disconnect()` closes the transport or cancels the timer),
`messageSize` (`boost::system::errc::message_size`, constructed by
`doReadHeader` for oversized headers) and a representative genuine I/O
failure. -/
inductive ErrorCode
  | ok
  | operationAborted
  | messageSize
  | ioFailure
deriving Repr, DecidableEq

/-- The observable actions a handler performs: user-callback invocations and
the operations it hands to the reactor.  The `deadlock` marker records a
second `lock()` of the non-recursive `writeMutex_` by the thread that
already holds it — undefined behaviour, in practice a self-deadlock: the
execution context blocks there, so in a real run no action follows a
`deadlock` and the handler never returns. -/
inductive Action
  | onError (ec : ErrorCode)
  | onConnected
  | onDisconnected
  | onMessage (body : Message)
  | startTimer (delayMs : Int)
  | cancelTimer
  | closeSocket
  | replaceSocket
  | setNoDelay
  | asyncResolve
  | asyncConnect
  | asyncReadHeader
  | asyncReadBody (len : Nat)
  | asyncWrite (frame : List Nat)
  | deadlock
deriving Repr, DecidableEq

/-- The mutable fields of `TcpClient` that the claims are about, plus two
observation histories: `wire`, the frames whose `async_write` has fully
completed, in completion order, and `sent`, the bodies passed to `send`, in
posting order.  The two history fields are written only by the embedding of
`doWrite`'s completion handler and of `send`; no handler reads them. -/
structure Client where
  state : ClientState
  userDisconnect : Bool
  reconnectAttempts : Nat
  config : ReconnectConfig
  writeQueue : List (List Nat)
  timerPending : Bool
  wire : List (List Nat)
  sent : List Message
deriving Repr, DecidableEq

/-- A freshly constructed `TcpClient` (member initialisers of `TcpClient.h`)
under configuration `cfg`. -/
def initialClient (cfg : ReconnectConfig) : Client :=
  { state := .Disconnected, userDisconnect := false, reconnectAttempts := 0,
    config := cfg, writeQueue := [], timerPending := false,
    wire := [], sent := [] }

/-- Method `TcpClient::isConnected`. -/
def Client.isConnected (c : Client) : Bool :=
  decide (c.state = .Connected)

/-- Method `TcpClient::doReconnect` up to its `async_wait` call: give up when
`maxRetries >= 0 && reconnectAttempts_ >= maxRetries`, otherwise enter
`Reconnecting`, compute the delay, increment the attempt counter and start
the timer.  (The timer-fire handler it installs is `handleTimerFire`.) -/
def doReconnect (c : Client) : Client × List Action :=
  if 0 ≤ c.config.maxRetries ∧ c.config.maxRetries ≤ (c.reconnectAttempts : Int)
  then
    ({ c with state := .Disconnected }, [])
  else
    let delay := calculateReconnectDelay c.config c.reconnectAttempts
    ({ c with state := .Reconnecting,
              reconnectAttempts := c.reconnectAttempts + 1,
              timerPending := true },
     [.startTimer delay])

/-- Method `TcpClient::handleDisconnect`: early return when already `Disconnected`;
otherwise close the socket, and either finish `Disconnected` on a user
disconnect (invoking `onDisconnected`), or invoke `onDisconnected` when
leaving `Connected` and consult the reconnect policy. -/
def handleDisconnect (c : Client) : Client × List Action :=
  if c.state = .Disconnected then (c, [])
  else if c.userDisconnect then
    ({ c with state := .Disconnected }, [.closeSocket, .onDisconnected])
  else
    let discActs : List Action :=
      if c.state = .Connected then [.onDisconnected] else []
    if c.config.enabled then
      let r := doReconnect c
      (r.1, .closeSocket :: discActs ++ r.2)
    else
      ({ c with state := .Disconnected }, .closeSocket :: discActs)

/-- The timer-fire handler installed by `TcpClient::doReconnect`: return on a
cancelled timer, return when the user has disconnected, otherwise replace the
socket, enter `Connecting` and start resolution. -/
def handleTimerFire (c : Client) (ec : ErrorCode) : Client × List Action :=
  let c0 := { c with timerPending := false }
  if ec ≠ .ok then (c0, [])
  else if c0.userDisconnect then (c0, [])
  else ({ c0 with state := .Connecting }, [.replaceSocket, .asyncResolve])

/-- The resolve-completion handler of `TcpClient::doResolve`: on any error
(no `operation_aborted` check) invoke `onError` and tear down; on success,
`doConnect` starts the asynchronous connect. -/
def handleResolve (c : Client) (ec : ErrorCode) : Client × List Action :=
  if ec ≠ .ok then
    let r := handleDisconnect c
    (r.1, .onError ec :: r.2)
  else
    (c, [.asyncConnect])

/-- Method `TcpClient::doWrite`: its first statement re-acquires
`writeMutex_` (TcpClient.cpp line 295).  When the caller already holds that
plain non-recursive `std::mutex` — the flush block of `handleConnect` and
the chained call in the write-completion handler do — the second `lock()`
is undefined behaviour / self-deadlock, recorded by the `deadlock` marker.
Otherwise: return on an empty queue, else start an asynchronous write of
the front frame.  The front entry is not removed here: its write-completion
handler (`handleWrite`) pops it. -/
def doWrite (c : Client) (writeMutexHeld : Bool) : Client × List Action :=
  if writeMutexHeld then (c, [.deadlock])
  else
    match c.writeQueue with
    | [] => (c, [])
    | data :: _ => (c, [.asyncWrite data])

/-- Method `TcpClient::handleConnect`: on any error (no `operation_aborted` check)
invoke `onError` and tear down; on success enter `Connected`, reset the
reconnect state, set `TCP_NODELAY`, invoke `onConnected`, start the read
loop and flush the write queue if non-empty.  The flush block
(TcpClient.cpp lines 125-130) checks the queue and calls `doWrite()` while
still holding `writeMutex_`, so that call runs with the mutex held. -/
def handleConnect (c : Client) (ec : ErrorCode) : Client × List Action :=
  if ec ≠ .ok then
    let r := handleDisconnect c
    (r.1, .onError ec :: r.2)
  else
    let c1 := { c with state := .Connected, reconnectAttempts := 0 }
    let acts : List Action := [.setNoDelay, .onConnected, .asyncReadHeader]
    if c1.writeQueue.isEmpty then (c1, acts)
    else
      let r := doWrite c1 true
      (r.1, acts ++ r.2)

/-- The header-read completion handler of `TcpClient::doReadHeader`, given the
four bytes read into `headerBuffer_`: errors other than `operation_aborted`
invoke `onError` and tear down; an invalid decoded length invokes `onError`
with `message_size` and tears down; a positive length starts the body read; a
zero length delivers an empty message and continues the read loop. -/
def handleReadHeader (c : Client) (ec : ErrorCode) (hdr : List Nat) :
    Client × List Action :=
  if ec ≠ .ok then
    if ec ≠ .operationAborted then
      let r := handleDisconnect c
      (r.1, .onError ec :: r.2)
    else (c, [])
  else
    let bodyLen := Message.decodeHeader hdr
    if !Message.isValidLength bodyLen then
      let r := handleDisconnect c
      (r.1, .onError .messageSize :: r.2)
    else if bodyLen > 0 then (c, [.asyncReadBody bodyLen])
    else (c, [.onMessage [], .asyncReadHeader])

/-- The body-read completion handler of `TcpClient::doReadBody`, given the
bytes read into `bodyBuffer_`: errors other than `operation_aborted` invoke
`onError` and tear down; on success deliver the message and continue the
read loop. -/
def handleReadBody (c : Client) (ec : ErrorCode) (body : List Nat) :
    Client × List Action :=
  if ec ≠ .ok then
    if ec ≠ .operationAborted then
      let r := handleDisconnect c
      (r.1, .onError ec :: r.2)
    else (c, [])
  else
    (c, [.onMessage body, .asyncReadHeader])

/-- The write-completion handler of `TcpClient::doWrite`: errors other than
`operation_aborted` invoke `onError` and tear down; on success pop the
written frame (recorded in `wire`, in its own lock scope) and, if the queue
is non-empty and the client still `Connected`, chain the next write — that
chained `doWrite()` call (TcpClient.cpp lines 322-328) is made while still
holding `writeMutex_`. -/
def handleWrite (c : Client) (ec : ErrorCode) : Client × List Action :=
  if ec ≠ .ok then
    if ec ≠ .operationAborted then
      let r := handleDisconnect c
      (r.1, .onError ec :: r.2)
    else (c, [])
  else
    let c1 := { c with wire := c.wire ++ c.writeQueue.take 1,
                       writeQueue := c.writeQueue.drop 1 }
    if !c1.writeQueue.isEmpty && c1.isConnected then doWrite c1 true
    else (c1, [])

/-- Method `TcpClient::connect`: store the target (host and port do not affect any
claim and are elided), clear the user-disconnect flag, reset the reconnect
state, enter `Connecting` and start resolution. -/
def Client.connect (c : Client) : Client × List Action :=
  ({ c with userDisconnect := false, reconnectAttempts := 0,
            state := .Connecting },
   [.asyncResolve])

/-- Method `TcpClient::disconnect`: set the user-disconnect flag, cancel the
reconnect timer, close the socket, enter `Disconnected`. -/
def Client.disconnect (c : Client) : Client × List Action :=
  ({ c with userDisconnect := true, timerPending := false,
            state := .Disconnected },
   [.cancelTimer, .closeSocket])

/-- Method `TcpClient::send` and the lambda it posts: encode the message, append it
to the write queue (recording the body in `sent`), and if no write was in
progress and the client is connected, start a write.  The lambda's
`lock_guard` scope ends before `doWrite()` is called (TcpClient.cpp lines
48-57), so this `doWrite` runs without the mutex held.  There is no failure
path: every call appends exactly one frame. -/
def Client.send (c : Client) (body : Message) : Client × List Action :=
  let data := Message.encode body
  let writeInProgress := !c.writeQueue.isEmpty
  let c1 := { c with writeQueue := c.writeQueue ++ [data],
                     sent := c.sent ++ [body] }
  if !writeInProgress && c1.isConnected then doWrite c1 false
  else (c1, [])

/-- The external events that drive the client: the public API calls and the
asynchronous completions delivered by the reactor (each carrying the
`error_code` of the operation, and for reads the bytes received). -/
inductive Event
  | connect
  | disconnect
  | send (body : Message)
  | resolveComplete (ec : ErrorCode)
  | connectComplete (ec : ErrorCode)
  | timerFire (ec : ErrorCode)
  | headerComplete (ec : ErrorCode) (hdr : List Nat)
  | bodyComplete (ec : ErrorCode) (body : List Nat)
  | writeComplete (ec : ErrorCode)
deriving Repr, DecidableEq

/-- Dispatch one event to the corresponding handler. -/
def step (c : Client) : Event → Client × List Action
  | .connect => c.connect
  | .disconnect => c.disconnect
  | .send body => c.send body
  | .resolveComplete ec => handleResolve c ec
  | .connectComplete ec => handleConnect c ec
  | .timerFire ec => handleTimerFire c ec
  | .headerComplete ec hdr => handleReadHeader c ec hdr
  | .bodyComplete ec body => handleReadBody c ec body
  | .writeComplete ec => handleWrite c ec

/-- Run a sequence of events, accumulating all actions in order. -/
def run (c : Client) : List Event → Client × List Action
  | [] => (c, [])
  | e :: es =>
    let r1 := step c e
    let r2 := run r1.1 es
    (r2.1, r1.2 ++ r2.2)

/-- All clients reached while running a sequence of events (the start client
included). -/
def states (c : Client) : List Event → List Client
  | [] => [c]
  | e :: es => c :: states (step c e).1 es

/-- How many `onError` invocations an action list contains. -/
def errorCount (as : List Action) : Nat :=
  as.countP fun a => match a with | .onError _ => true | _ => false

/-- How many timer starts an action list contains. -/
def timerStartCount (as : List Action) : Nat :=
  as.countP fun a => match a with | .startTimer _ => true | _ => false

/-- A client on which `connect` and then `disconnect` have been called: the
user-disconnect flag is set while the `async_connect` issued by the connect
attempt may still be outstanding. -/
def connectThenDisconnect : Client :=
  (Client.disconnect (Client.connect (initialClient defaultReconnectConfig)).1).1

/-- A client sitting in `Reconnecting` with the backoff timer pending: a
fresh client whose first connect attempt failed with a genuine I/O error. -/
def reconnectingClient : Client :=
  (run (initialClient defaultReconnectConfig)
    [.connect, .connectComplete .ioFailure]).1

/-- A freshly connected client. -/
def connectedClient : Client :=
  (run (initialClient defaultReconnectConfig) [.connect, .connectComplete .ok]).1

/-- A body one byte longer than `MAX_BODY_SIZE`. -/
def oversizedBody : Message := List.replicate (16 * 1024 * 1024 + 1) 0

/-- The specification's FIFO-delivery scenario: bodies `"a"`, `"b"`, `"c"`
(bytes 97, 98, 99) sent while disconnected, then a connect whose
`async_connect` completes successfully. -/
def fifoScenario : List Event :=
  [.send [97], .send [98], .send [99], .connect, .connectComplete .ok]

/-- An initial connect attempt that fails, followed by three reconnect
attempts that all fail: every timer fire leads to a connect completion
carrying a genuine I/O error. -/
def retry3Events : List Event :=
  [.connect, .connectComplete .ioFailure, .timerFire .ok,
   .connectComplete .ioFailure, .timerFire .ok,
   .connectComplete .ioFailure, .timerFire .ok,
   .connectComplete .ioFailure]

/-- A client configured with `maxRetries = 3` whose reconnect-attempt
counter has reached 3. -/
def exhaustedClient : Client :=
  { initialClient { maxRetries := 3 } with reconnectAttempts := 3 }

theorem u32be_decode (v : Nat) (l : List Nat) (h : v < 2 ^ 32) :
    Message.decodeHeader (u32be v ++ l) = v := by
  simp only [u32be, Message.decodeHeader, List.cons_append, Nat.mod_eq_of_lt h]
  omega

theorem doWrite_fst (c : Client) (writeMutexHeld : Bool) :
    (doWrite c writeMutexHeld).1 = c := by
  unfold doWrite
  split
  · rfl
  · split <;> rfl

theorem doWrite_no_timer (c : Client) (writeMutexHeld : Bool) :
    timerStartCount (doWrite c writeMutexHeld).2 = 0 := by
  unfold doWrite
  split
  · simp [timerStartCount]
  · split <;> simp [timerStartCount]

theorem handleDisconnect_no_onError (c : Client) :
    errorCount (handleDisconnect c).2 = 0 := by
  unfold handleDisconnect doReconnect
  split_ifs <;> simp [errorCount]

theorem handleDisconnect_no_readBody (c : Client) (n : Nat) :
    Action.asyncReadBody n ∉ (handleDisconnect c).2 := by
  unfold handleDisconnect doReconnect
  split_ifs <;> simp

theorem handleDisconnect_userDisc (c : Client) (h : c.userDisconnect = true) :
    (handleDisconnect c).1.state = .Disconnected ∧
    (handleDisconnect c).1.userDisconnect = true ∧
    timerStartCount (handleDisconnect c).2 = 0 := by
  unfold handleDisconnect
  by_cases h1 : c.state = .Disconnected
  · simp [h1, h, timerStartCount]
  · simp [h1, h, timerStartCount]

theorem errorCount_cons_onError (ec : ErrorCode) (as : List Action) :
    errorCount (.onError ec :: as) = errorCount as + 1 := by
  simp [errorCount]

theorem oversizedBody_length : oversizedBody.length = 16 * 1024 * 1024 + 1 :=
  List.length_replicate _ _

theorem encode_length (b : Message) :
    (Message.encode b).length = HEADER_SIZE + b.length := by
  simp only [Message.encode, u32be, List.length_append, List.length_cons,
    List.length_nil, HEADER_SIZE]

theorem step_no_timer_of_userDisconnect (c : Client) (e : Event)
    (h : c.userDisconnect = true) :
    timerStartCount (step c e).2 = 0 := by
  have hd := (handleDisconnect_userDisc c h).2.2
  cases e with
  | connect => simp [step, Client.connect, timerStartCount]
  | disconnect => simp [step, Client.disconnect, timerStartCount]
  | send body =>
    simp only [step, Client.send]
    split
    · exact doWrite_no_timer _ _
    · simp [timerStartCount]
  | resolveComplete ec =>
    simp only [step, handleResolve]
    split
    · simpa [timerStartCount] using hd
    · simp [timerStartCount]
  | connectComplete ec =>
    simp only [step, handleConnect]
    split
    · simpa [timerStartCount] using hd
    · split
      · simp [timerStartCount]
      · simp [timerStartCount, doWrite]
  | timerFire ec =>
    simp only [step, handleTimerFire]
    split_ifs <;> simp [timerStartCount]
  | headerComplete ec hdr =>
    simp only [step, handleReadHeader]
    split_ifs <;> simp [timerStartCount] <;> simpa [timerStartCount] using hd
  | bodyComplete ec body =>
    simp only [step, handleReadBody]
    split_ifs <;> simp [timerStartCount] <;> simpa [timerStartCount] using hd
  | writeComplete ec =>
    simp only [step, handleWrite]
    split_ifs with h1 h2
    · simpa [timerStartCount] using hd
    · simp [timerStartCount]
    · simp [timerStartCount, doWrite]
    · simp [timerStartCount]

theorem step_preserves_userDisconnect (c : Client) (e : Event)
    (h : c.userDisconnect = true) (he : e ≠ .connect) :
    (step c e).1.userDisconnect = true ∧
    ((step c e).1.state = .Connecting → c.state = .Connecting) := by
  have hd1 := (handleDisconnect_userDisc c h).1
  have hd2 := (handleDisconnect_userDisc c h).2.1
  cases e with
  | connect => exact absurd rfl he
  | disconnect => exact ⟨rfl, fun hx => absurd hx.symm (by simp [step, Client.disconnect])⟩
  | send body =>
    simp only [step, Client.send]
    split
    · rw [doWrite_fst]
      exact ⟨h, fun hx => hx⟩
    · exact ⟨h, fun hx => hx⟩
  | resolveComplete ec =>
    simp only [step, handleResolve]
    split
    · exact ⟨hd2, fun hx => absurd (hd1 ▸ hx) (by simp)⟩
    · exact ⟨h, fun hx => hx⟩
  | connectComplete ec =>
    simp only [step, handleConnect]
    split
    · exact ⟨hd2, fun hx => absurd (hd1 ▸ hx) (by simp)⟩
    · split
      · exact ⟨h, by simp⟩
      · rw [doWrite_fst]
        exact ⟨h, by simp⟩
  | timerFire ec =>
    simp only [step, handleTimerFire, h]
    split_ifs <;> exact ⟨rfl, fun hx => hx⟩
  | headerComplete ec hdr =>
    simp only [step, handleReadHeader]
    split_ifs
    · exact ⟨hd2, fun hx => absurd (hd1 ▸ hx) (by simp)⟩
    · exact ⟨h, fun hx => hx⟩
    · exact ⟨hd2, fun hx => absurd (hd1 ▸ hx) (by simp)⟩
    · exact ⟨h, fun hx => hx⟩
    · exact ⟨h, fun hx => hx⟩
  | bodyComplete ec body =>
    simp only [step, handleReadBody]
    split_ifs
    · exact ⟨hd2, fun hx => absurd (hd1 ▸ hx) (by simp)⟩
    · exact ⟨h, fun hx => hx⟩
    · exact ⟨h, fun hx => hx⟩
  | writeComplete ec =>
    simp only [step, handleWrite]
    split_ifs
    · exact ⟨hd2, fun hx => absurd (hd1 ▸ hx) (by simp)⟩
    · exact ⟨h, fun hx => hx⟩
    · rw [doWrite_fst]
      exact ⟨h, fun hx => hx⟩
    · exact ⟨h, fun hx => hx⟩

theorem states_no_connecting (c : Client) (es : List Event)
    (h1 : c.userDisconnect = true) (h2 : c.state ≠ .Connecting)
    (hes : ∀ e ∈ es, e ≠ .connect) :
    ∀ c' ∈ states c es, c'.state ≠ .Connecting := by
  induction es generalizing c with
  | nil =>
    intro c' hc'
    simp only [states, List.mem_singleton] at hc'
    exact hc' ▸ h2
  | cons e es ih =>
    intro c' hc'
    simp only [states, List.mem_cons] at hc'
    rcases hc' with rfl | hc'
    · exact h2
    · have he : e ≠ .connect := hes e (List.mem_cons_self e es)
      have inv := step_preserves_userDisconnect c e h1 he
      exact ih (step c e).1 inv.1 (fun hx => h2 (inv.2 hx))
        (fun e' he' => hes e' (List.mem_cons_of_mem e he')) c' hc'

/-- C1: for every body of at most 16 MiB, decoding the frame produced by
`Message::encode` recovers the body exactly: the first 4 bytes decode via
`Message::decodeHeader` to the body length, and the remaining bytes equal the
body. -/
theorem C1_encode_decode_roundtrip (b : Message)
    (h : b.length ≤ 16 * 1024 * 1024) :
    Message.decodeHeader (Message.encode b) = b.length ∧
    (Message.encode b).drop HEADER_SIZE = b := by
  constructor
  · exact u32be_decode b.length b (by omega)
  · simp [Message.encode, u32be, HEADER_SIZE]

/-- Witness for C1 at the concrete body `"hi"` = `[104, 105]`. -/
theorem C1_encode_decode_roundtrip_witness :
    Message.decodeHeader (Message.encode [104, 105]) = 2 ∧
    (Message.encode [104, 105]).drop HEADER_SIZE = [104, 105] :=
  C1_encode_decode_roundtrip [104, 105] (by decide)

/-- C3: the reconnect delay is `initialDelay` for attempt 0 and
`min (initialDelay * backoffMultiplier ^ n) maxDelay` for `n > 0` (stated for
configurations where that product is a whole number of milliseconds, as in
the default configuration); with the defaults `1000ms / 2.0 / 30000ms`,
attempts 0..6 yield `1000, 2000, 4000, 8000, 16000, 30000, 30000`. -/
theorem C3_reconnect_delay (cfg : ReconnectConfig) (n : Nat) (k : Int)
    (hk : (cfg.initialDelay : ℚ) * cfg.backoffMultiplier ^ n = (k : ℚ)) :
    (calculateReconnectDelay cfg n =
      if n = 0 then cfg.initialDelay else min k cfg.maxDelay) ∧
    (List.range 7).map (calculateReconnectDelay defaultReconnectConfig) =
      [1000, 2000, 4000, 8000, 16000, 30000, 30000] := by
  constructor
  · by_cases h0 : n = 0
    · simp [calculateReconnectDelay, h0]
    · simp [calculateReconnectDelay, h0, hk, Int.floor_intCast]
  · norm_num [List.range_succ, calculateReconnectDelay, defaultReconnectConfig]

/-- Witness for C3 at the default configuration and attempt 5, where the
uncapped product `1000 * 2 ^ 5 = 32000` exceeds the 30000 ms cap. -/
theorem C3_reconnect_delay_witness :
    calculateReconnectDelay defaultReconnectConfig 5 =
      if 5 = 0 then defaultReconnectConfig.initialDelay
      else min 32000 defaultReconnectConfig.maxDelay :=
  (C3_reconnect_delay defaultReconnectConfig 5 32000
    (by norm_num [defaultReconnectConfig])).1

/-- C2 fails on the code at the connect path: after `connect()` then
`disconnect()` (user-disconnect flag set, socket closed), the outstanding
`async_connect` completes with `operation_aborted`, and
`TcpClient::handleConnect` — which checks `if (ec)` with no
`operation_aborted` exemption — invokes `onError` with the cancellation
code. -/
theorem C2_counterexample_cancelled_connect_reports_error :
    connectThenDisconnect.userDisconnect = true ∧
    (step connectThenDisconnect (.connectComplete .operationAborted)).2 =
      [.onError .operationAborted] ∧
    errorCount
      (step connectThenDisconnect (.connectComplete .operationAborted)).2 = 1 :=
  ⟨rfl, rfl, rfl⟩

/-- C2 (amended): completions of read-header, read-body and write that carry
`operation_aborted` are silent no-ops, and so is a cancelled reconnect timer;
with the user-disconnect flag set no handler ever schedules a reconnect
timer; but the resolve and connect completion handlers invoke `onError`
exactly once even when the completion is the cancellation caused by
`disconnect()` (teardown still ends `Disconnected` with no reconnection). -/
theorem C2_cancellation_silent_except_connect_path (c : Client)
    (hdr body : List Nat) (h : c.userDisconnect = true) :
    step c (.headerComplete .operationAborted hdr) = (c, []) ∧
    step c (.bodyComplete .operationAborted body) = (c, []) ∧
    step c (.writeComplete .operationAborted) = (c, []) ∧
    step c (.timerFire .operationAborted) =
      ({ c with timerPending := false }, []) ∧
    (∀ e : Event, timerStartCount (step c e).2 = 0) ∧
    ((step c (.resolveComplete .operationAborted)).1.state = .Disconnected ∧
      errorCount (step c (.resolveComplete .operationAborted)).2 = 1) ∧
    ((step c (.connectComplete .operationAborted)).1.state = .Disconnected ∧
      errorCount (step c (.connectComplete .operationAborted)).2 = 1) := by
  refine ⟨rfl, rfl, rfl, rfl,
    fun e => step_no_timer_of_userDisconnect c e h, ⟨?_, ?_⟩, ⟨?_, ?_⟩⟩
  · exact (handleDisconnect_userDisc c h).1
  · show errorCount (.onError .operationAborted :: (handleDisconnect c).2) = 1
    rw [errorCount_cons_onError, handleDisconnect_no_onError]
  · exact (handleDisconnect_userDisc c h).1
  · show errorCount (.onError .operationAborted :: (handleDisconnect c).2) = 1
    rw [errorCount_cons_onError, handleDisconnect_no_onError]

/-- Witness for the amended C2 at the client that connected then
user-disconnected. -/
theorem C2_cancellation_silent_except_connect_path_witness :
    step connectThenDisconnect (.headerComplete .operationAborted [0, 0, 0, 0]) =
      (connectThenDisconnect, []) ∧
    (step connectThenDisconnect (.resolveComplete .operationAborted)).1.state =
      .Disconnected := by
  have h := C2_cancellation_silent_except_connect_path connectThenDisconnect
    [0, 0, 0, 0] [] rfl
  exact ⟨h.1, h.2.2.2.2.2.1.1⟩

/-- C4: whenever `TcpClient::doReconnect` runs with `maxRetries >= 0` and
`reconnectAttempts_ >= maxRetries`, it transitions to `Disconnected` and
performs no action (no timer is scheduled); concretely, with `maxRetries = 3`,
after the initial connect attempt and 3 failed reconnect attempts the client
is `Disconnected` with no pending timer, exactly 3 timers having ever been
scheduled. -/
theorem C4_retry_exhaustion (c : Client)
    (h1 : 0 ≤ c.config.maxRetries)
    (h2 : c.config.maxRetries ≤ (c.reconnectAttempts : Int)) :
    doReconnect c = ({ c with state := .Disconnected }, []) ∧
    (run (initialClient { maxRetries := 3 }) retry3Events).1.state =
      .Disconnected ∧
    (run (initialClient { maxRetries := 3 }) retry3Events).1.timerPending =
      false ∧
    timerStartCount (run (initialClient { maxRetries := 3 }) retry3Events).2 =
      3 := by
  refine ⟨?_, rfl, rfl, rfl⟩
  simp [doReconnect, h1, h2]

/-- Witness for C4 at a client whose attempt counter has reached
`maxRetries = 3`. -/
theorem C4_retry_exhaustion_witness :
    doReconnect exhaustedClient =
      ({ exhaustedClient with state := .Disconnected }, []) :=
  (C4_retry_exhaustion exhaustedClient (by decide) (by decide)).1

/-- C5: calling `disconnect()` on a `Reconnecting` client (timer pending)
cancels the timer and moves to `Disconnected`, and under any following
events that do not include a new `connect()` call — cancelled or even
successful timer fires included, the fire handler checking the
user-disconnect flag first — no reached state is `Connecting`. -/
theorem C5_disconnect_suppresses_reconnect (c : Client) (es : List Event)
    (hstate : c.state = .Reconnecting) (htimer : c.timerPending = true)
    (hes : ∀ e ∈ es, e ≠ .connect) :
    (step c .disconnect).1.timerPending = false ∧
    (step c .disconnect).1.state = .Disconnected ∧
    ∀ c' ∈ states (step c .disconnect).1 es, c'.state ≠ .Connecting := by
  refine ⟨rfl, rfl, ?_⟩
  exact states_no_connecting _ es rfl (fun hx => ClientState.noConfusion hx) hes

/-- Witness for C5 at a client in `Reconnecting` after one failed connect
attempt, followed by a cancelled and then a successful timer fire. -/
theorem C5_disconnect_suppresses_reconnect_witness :
    (step reconnectingClient .disconnect).1.timerPending = false ∧
    (step reconnectingClient .disconnect).1.state = .Disconnected := by
  have h := C5_disconnect_suppresses_reconnect reconnectingClient
    [.timerFire .operationAborted, .timerFire .ok] rfl rfl (by decide)
  exact ⟨h.1, h.2.1⟩

/-- C6: a header that decodes to an invalid (> 16 MiB) length makes the
header-read handler invoke `onError` exactly once (with the `message_size`
framing cause), start no body read, and route into exactly
`TcpClient::handleDisconnect` — the same teardown/reconnect path every other
I/O error takes. -/
theorem C6_framing_error_teardown (c : Client) (hdr : List Nat)
    (hbad : Message.isValidLength (Message.decodeHeader hdr) = false) :
    step c (.headerComplete .ok hdr) =
      ((handleDisconnect c).1,
        .onError .messageSize :: (handleDisconnect c).2) ∧
    errorCount (step c (.headerComplete .ok hdr)).2 = 1 ∧
    ∀ n : Nat, Action.asyncReadBody n ∉ (step c (.headerComplete .ok hdr)).2 := by
  have hstep : step c (.headerComplete .ok hdr) =
      ((handleDisconnect c).1,
        .onError .messageSize :: (handleDisconnect c).2) := by
    simp [step, handleReadHeader, hbad]
  refine ⟨hstep, ?_, ?_⟩
  · rw [hstep]
    show errorCount (.onError .messageSize :: (handleDisconnect c).2) = 1
    rw [errorCount_cons_onError, handleDisconnect_no_onError]
  · intro n
    rw [hstep]
    intro hmem
    rcases List.mem_cons.mp hmem with h' | h'
    · exact Action.noConfusion h'
    · exact handleDisconnect_no_readBody c n h'

/-- Witness for C6 at a connected client receiving a header declaring
16 MiB + 1 bytes. -/
theorem C6_framing_error_teardown_witness :
    step connectedClient (.headerComplete .ok (u32be 16777217)) =
      ((handleDisconnect connectedClient).1,
        .onError .messageSize :: (handleDisconnect connectedClient).2) ∧
    errorCount (step connectedClient (.headerComplete .ok (u32be 16777217))).2 =
      1 := by
  have h := C6_framing_error_teardown connectedClient (u32be 16777217)
    (by decide)
  exact ⟨h.1, h.2.1⟩

/-- C9: `Message::isValidLength len` is true exactly when
`len ≤ 16777216` (16 MiB inclusive); in particular it accepts
`16 * 1024 * 1024` and rejects `16 * 1024 * 1024 + 1`. -/
theorem C9_isValidLength_iff :
    (∀ len : Nat, Message.isValidLength len = true ↔ len ≤ 16777216) ∧
    Message.isValidLength (16 * 1024 * 1024) = true ∧
    Message.isValidLength (16 * 1024 * 1024 + 1) = false := by
  refine ⟨fun len => ?_, by decide, by decide⟩
  simp [Message.isValidLength, MAX_BODY_SIZE]

/-- C7's FIFO-delivery half fails in the source, not because order is lost
but because delivery never happens: `send` while disconnected does queue
each encoded frame in order without failing, yet when the subsequent connect
completes, `handleConnect`'s flush block calls `doWrite()` while holding
`writeMutex_`, which `doWrite` immediately re-locks — undefined behaviour /
self-deadlock on the non-recursive mutex — so no `async_write` is ever
issued and nothing reaches the wire.  Evaluated at the claim's own scenario:
the action trace ends in the deadlock with no write started, the wire stays
empty, while the queue holds the three frames in enqueue order. -/
theorem C7_send_fifo_deadlock :
    (run (initialClient defaultReconnectConfig) fifoScenario).2 =
      [.asyncResolve, .setNoDelay, .onConnected, .asyncReadHeader,
       .deadlock] ∧
    (run (initialClient defaultReconnectConfig) fifoScenario).1.wire = [] ∧
    (run (initialClient defaultReconnectConfig) fifoScenario).1.writeQueue =
      [Message.encode [97], Message.encode [98], Message.encode [99]] :=
  ⟨rfl, rfl, rfl⟩

/-- C8 fails on the code: neither `Message::encode` nor `TcpClient::send`
checks the body size, so a body of 16 MiB + 1 bytes is encoded into a
4 + 16777217-byte frame and enqueued as-is. -/
theorem C8_counterexample_oversized_send_enqueued :
    16 * 1024 * 1024 < oversizedBody.length ∧
    (Message.encode oversizedBody).length = HEADER_SIZE + oversizedBody.length ∧
    ((initialClient defaultReconnectConfig).send oversizedBody).1.writeQueue =
      [Message.encode oversizedBody] := by
  refine ⟨by rw [oversizedBody_length]; omega, encode_length oversizedBody, ?_⟩
  simp [Client.send, initialClient, Client.isConnected]

/-- C8 (amended): there is no send-side size check — `Message::encode`
produces a `HEADER_SIZE + len(body)`-byte frame for every body whatever its
length, and `send` unconditionally enqueues that frame; oversized bodies are
rejected only by the receiving side's `isValidLength` header check. -/
theorem C8_no_sendside_size_check (c : Client) (body : Message) :
    (Message.encode body).length = HEADER_SIZE + body.length ∧
    (c.send body).1.writeQueue = c.writeQueue ++ [Message.encode body] := by
  constructor
  · exact encode_length body
  · simp only [Client.send]
    split
    · rw [doWrite_fst]
    · rfl

/-- C10: `TcpClient::handleDisconnect` is idempotent: run while the state is
already `Disconnected`, it returns immediately, leaving the whole client
(state, write queue, reconnect-attempt counter) unchanged, invoking no
callback and scheduling no timer. -/
theorem C10_teardown_idempotent (c : Client) (h : c.state = .Disconnected) :
    handleDisconnect c = (c, []) := by
  simp [handleDisconnect, h]

/-- Witness for C10 at a freshly constructed (hence `Disconnected`) client. -/
theorem C10_teardown_idempotent_witness :
    handleDisconnect (initialClient defaultReconnectConfig) =
      (initialClient defaultReconnectConfig, []) :=
  C10_teardown_idempotent (initialClient defaultReconnectConfig) rfl

end asioclient
